import Mathlib

/-!
# Verification of the flex-parse tokenizing parser

A shallow embedding of the repository's single-pass HTML/XML parser
(`parse`), its whitespace utilities (`isWhitespace`, `truncateWhitespace`,
`hashArray`) and the node construction contract of the bundled tree-model
library (the `Node` constructor and `appendChild`).

JavaScript strings are modelled as Lean `String`s (iterated as their
`List Char` of code points, which matches `for ... of` iteration),
the mutable node/parent graph as a zipper (the currently open element plus
the stack of its open ancestors; appending a child to the open node pushes
onto its child list, `node = node.parent` pops the stack, re-attaching the
finished element), and thrown errors as `Except`.
-/

namespace FlexParse

/-- The base Unicode whitespace set of `utils/isWhitespace.js`
(the character constants CHARACTER_TABULATION .. ZERO_WIDTH_NON_BREAKING_SPACE,
in source order). -/
def baseWhitespaceChars : List Char :=
  ['\u0009', '\u000A', '\u000B', '\u000C', '\u000D', ' ', '\u0085',
   ' ', ' ', ' ', ' ', ' ', ' ', ' ',
   ' ', ' ', ' ', ' ', ' ', ' ', ' ',
   ' ', ' ', ' ', '　', '᠎', '​', '‌',
   '‍', '⁠', '﻿']

/-- The "whitespace symbolic images" set of `utils/isWhitespace.js`
(MIDDLE_DOT .. IDEOGRAPHIC_TELEGRAPH_LINE_FEED_SEPARATOR_SYMBOL). -/
def whitespaceSymbolChars : List Char :=
  ['·', '↡', '≡', '⍽', '⏎', '␉', '␊',
   '␋', '␌', '␍', '␠', '␢', '␣', '␤',
   '△', '⩛', '⪪', '⪫', '〷']

/-- Transcription of `isWhitespace(char, includeSymbols)` from `utils/isWhitespace.js`:
true for the base Unicode whitespace set, and additionally for the
symbolic-image set when `includeSymbols` is set. -/
def isWhitespace (c : Char) (includeSymbols : Bool) : Bool :=
  baseWhitespaceChars.contains c ||
    (includeSymbols && whitespaceSymbolChars.contains c)

/-- The whitespace set removed by JavaScript's built-in
`String.prototype.trim` (ECMAScript WhiteSpace ∪ LineTerminator). -/
def jsTrimWhitespace (c : Char) : Bool :=
  c ∈ ['\u0009', '\u000B', '\u000C', ' ', ' ', '﻿',
       ' ', ' ', ' ', ' ', ' ', ' ',
       ' ', ' ', ' ', ' ', ' ', ' ',
       ' ', ' ', '　',
       '\u000A', '\u000D', ' ', ' ']

/-- JavaScript `s.trim()`: strips `jsTrimWhitespace` characters from both
ends. -/
def jsTrim (s : String) : String :=
  ⟨(s.data.dropWhile jsTrimWhitespace).reverse.dropWhile jsTrimWhitespace
    |>.reverse⟩

/-- JavaScript `s.toLowerCase()`, mapped per character. `Char.toLower`
covers the ASCII letters; the tag names this parser lower-cases under
`htmlMode` and the names in the fixed HTML element sets are all ASCII. -/
def jsToLower (s : String) : String :=
  ⟨s.data.map Char.toLower⟩

/-- The loop body of `truncateWhitespace` from
`src/utils/truncateWhitespace.js`, transcribed as forward recursion.
The JavaScript builds the output string `n` left to right and only ever
reads its last character `p = n[n.length - 1]`; here `p` is carried as an
accumulator (`none` while `n` is still empty). A classified whitespace
character is skipped when `p` is already a space and otherwise emits a
single `' '`; any other character passes through. -/
def truncateGo (includeSymbols : Bool) : Option Char → List Char → List Char
  | _, [] => []
  | p, c :: cs =>
    if isWhitespace c includeSymbols then
      if p = some ' ' then truncateGo includeSymbols p cs
      else ' ' :: truncateGo includeSymbols (some ' ') cs
    else c :: truncateGo includeSymbols (some c) cs

/-- Transcription of `truncateWhitespace(string, includeSymbols)` from
`src/utils/truncateWhitespace.js`: collapses every run of classified
whitespace into a single U+0020 space. -/
def truncateWhitespace (s : String) (includeSymbols : Bool) : String :=
  ⟨truncateGo includeSymbols none s.data⟩

/-- Membership test derived from `hashArray(arr, toLowerCase)` in `src/utils/hashArray.js`, which builds a
string-keyed hash whose keys are the array items (lower-cased when
`toLowerCase`); this is its membership test `hash[key]`. -/
def hashMem (arr : List String) (toLowerCase : Bool) (key : String) : Bool :=
  arr.any fun item => (if toLowerCase then jsToLower item else item) == key

/-- The fixed raw-text element names merged in by `htmlMode`. -/
def htmlRawTextElements : List String := ["script", "style", "title", "textarea"]

/-- The fixed void element names merged in by `htmlMode`. -/
def htmlVoidElements : List String :=
  ["area", "base", "br", "col", "command", "embed", "hr", "img", "input",
   "keygen", "link", "meta", "param", "source", "track", "wbr"]

/-- The parse options relevant to the pure fragment of `parse`
(`src/unnamed/part_000`). The `onSnapshot` hook has no effect on parsing
and the `onText`/`onAttribute` hooks are modelled as absent (their
default). -/
structure Options where
  htmlMode : Bool := false
  ignoreEmptyText : Bool := false
  rawTextElements : List String := []
  trimAttributes : Bool := false
  trimText : Bool := false
  truncateAttributes : Bool := false
  truncateText : Bool := false
  voidElements : List String := []
deriving Repr, DecidableEq

/-- Membership in the normalized `options.rawTextElements` hash:
`hashArray(options.rawTextElements, options.htmlMode)` merged with the
fixed HTML raw-text set when `htmlMode`. -/
def isRawTextName (o : Options) (key : String) : Bool :=
  hashMem o.rawTextElements o.htmlMode key ||
    (o.htmlMode && htmlRawTextElements.contains key)

/-- Membership in the normalized `options.voidElements` hash, with the
fixed HTML void set merged in when `htmlMode`. -/
def isVoidName (o : Options) (key : String) : Bool :=
  hashMem o.voidElements o.htmlMode key ||
    (o.htmlMode && htmlVoidElements.contains key)

/-- JavaScript property access `hash[nbuf.tagName]` coerces an undefined
key to the string "undefined". -/
def jsKey : Option String → String
  | some s => s
  | none => "undefined"

/-- JavaScript string indexing `s[i]`: `undefined` (here `none`) when out
of range or negative. -/
def jsCharAt (s : String) (i : Int) : Option Char :=
  if i < 0 then none else s.data.get? i.toNat

/-- The produced tree (the shape of a virty `Node` that `parse` builds):
a tagged union over element/text/comment. -/
inductive PNode where
  | element (tagName : String) (attributes : List (String × String))
      (children : List PNode) (isSelfClosing : Bool)
  | text (value : String)
  | comment (value : String)
deriving Repr

/-- virty's `Node` constructor normalization for a comment value
(dist/index.mjs): the value is trimmed, and, when non-empty and not
already of the shape `<!--` ... `-->`, wrapped in those delimiters. -/
def mkCommentValue (v : String) : String :=
  let t := jsTrim v
  if t.length ≠ 0 &&
      !(jsCharAt t 0 == some '<' && jsCharAt t 1 == some '!' &&
        jsCharAt t 2 == some '-' && jsCharAt t 3 == some '-' &&
        jsCharAt t ((t.length : Int) - 3) == some '-' &&
        jsCharAt t ((t.length : Int) - 2) == some '-' &&
        jsCharAt t ((t.length : Int) - 1) == some '>') then
    "<!--" ++ t ++ "-->"
  else t

/-- Construction `new Node({type: COMMENT, value})`. -/
def mkComment (v : String) : PNode := .comment (mkCommentValue v)

/-- Construction `new Node({type: TEXT, value})` (the value is stored verbatim). -/
def mkText (v : String) : PNode := .text v

/-- virty `Node` element construction: an undefined `tagName` becomes `""`
and undefined `attributes` become the empty map. -/
def mkElement (tagName : Option String) (attrs : Option (List (String × String)))
    (isSelfClosing : Bool) : PNode :=
  .element (tagName.getD "") (attrs.getD []) [] isSelfClosing

/-- JavaScript object assignment `attrs[k] = v`: overwrites in place when
the key exists, otherwise appends (insertion order preserved). -/
def setAttr (l : List (String × String)) (k v : String) :
    List (String × String) :=
  if l.any (·.1 == k) then l.map fun p => if p.1 == k then (k, v) else p
  else l ++ [(k, v)]

/-- The gates of the state machine (`TAG_NAME` .. `NQ_A_VAL`). -/
inductive Gate where
  | tagName | attName | sqAVal | dqAVal | nqAVal
deriving Repr, DecidableEq

/-- The open node types (`COMMENT`, `ELEMENT`, `TEXT`). -/
inductive NType where
  | comment | element | text
deriving Repr, DecidableEq

/-- The tag types (`CL_TAG`, `SC_TAG`). -/
inductive TType where
  | clTag | scTag
deriving Repr, DecidableEq

/-- An element that is currently open (on the `node` chain): its fields
plus the children appended so far. -/
structure OpenEl where
  tagName : String
  attributes : List (String × String)
  isSelfClosing : Bool
  children : List PNode
deriving Repr

/-- Close an open element into a tree node. -/
def OpenEl.toNode (e : OpenEl) : PNode :=
  .element e.tagName e.attributes e.children e.isSelfClosing

/-- The loop state of `parse`: the zipper (`cur` is the JavaScript `node`,
`stack` its chain of open ancestors, innermost first, the root at the
bottom; `stack = []` exactly when `node === root`), the node buffer
`nbuf` (`nbufTag`/`nbufAttrs`, `none` when the field is still undefined),
and the buffers/flags `abuf`, `cbuf`, `gate`, `ntype`, `ttype`, `rmode`,
`rmbuf`. -/
structure St where
  stack : List OpenEl
  cur : OpenEl
  nbufTag : Option String
  nbufAttrs : Option (List (String × String))
  abuf : String
  cbuf : String
  gate : Option Gate
  ntype : Option NType
  ttype : Option TType
  rmode : Bool
  rmbuf : String
deriving Repr

/-- The initial state: `node = root = new Node({type: ELEMENT, tagName:
"ROOT"})`, everything else empty/unset. -/
def initSt : St :=
  { stack := [], cur := ⟨"ROOT", [], false, []⟩, nbufTag := none,
    nbufAttrs := none, abuf := "", cbuf := "", gate := none, ntype := none,
    ttype := none, rmode := false, rmbuf := "" }

/-- Mutation `node.appendChild(n)`. -/
def appendChild (st : St) (n : PNode) : St :=
  { st with cur := { st.cur with children := st.cur.children ++ [n] } }

/-- Mutation `node.appendChild(nnode); node = nnode`: the current open element is
pushed on the ancestor stack and the new element becomes `node` (when it
is later closed it is re-attached as the last child of the ancestor). -/
def descendInto (st : St) (e : OpenEl) : St :=
  { st with stack := st.cur :: st.stack, cur := e }

/-- Mutation `node = node.parent`: pop one level, re-attaching the finished open
element as the last child of the parent. On the root (never reached by
the source: every pop site is guarded) this is the identity. -/
def popToParent (st : St) : St :=
  match st.stack with
  | [] => st
  | p :: rest =>
    { st with stack := rest,
              cur := { p with children := p.children ++ [st.cur.toNode] } }

/-- The errors `parse` can throw while scanning. -/
inductive ParseErr where
  | unexpectedToken (c : Char) (pos : Nat)
  | unmatchedClosingTag (pos : Nat)
  | unexpectedEndOfInput
deriving Repr, DecidableEq

end FlexParse

namespace FlexParse

/-- Options `trimAttributes`/`truncateAttributes`, applied in that
order when an attribute value is committed. -/
def applyAttrOpts (o : Options) (c : String) : String :=
  let c := if o.trimAttributes then jsTrim c else c
  if o.truncateAttributes then truncateWhitespace c false else c

/-- Options `trimText`/`truncateText`, applied in that order when
a text node is committed. -/
def applyTextOpts (o : Options) (c : String) : String :=
  let c := if o.trimText then jsTrim c else c
  if o.truncateText then truncateWhitespace c false else c

/-- The catch-all tail of the loop body (lines 415-417 of
`src/unnamed/part_000`): `if (!ntype) ntype = TEXT` and the character is
appended to the character buffer. -/
def defaultAppend (st : St) (c : Char) : St :=
  let st := if st.ntype = none then { st with ntype := some .text } else st
  { st with cbuf := st.cbuf.push c }

/-- Accessor for `nbuf.attributes`, materialized as `{}` when still undefined
(`if (!nbuf.attributes) nbuf.attributes = {}`). -/
def attrsOrEmpty (a : Option (List (String × String))) : List (String × String) :=
  a.getD []

/-- The gate-commit prefix of the `>` handler (lines 204-243): flushes the
pending tag name / attribute name / unquoted value / dangling bare
attribute into the node buffer. With the `onAttribute` hook absent, a
committed attribute name gets the empty value. -/
def commitGate (o : Options) (st : St) : St :=
  if st.gate = some .tagName then
    { st with nbufTag := some (if o.htmlMode then jsToLower st.cbuf else st.cbuf) }
  else if st.gate = some .attName then
    { st with nbufAttrs := some (setAttr (attrsOrEmpty st.nbufAttrs) st.cbuf "") }
  else if st.gate = some .nqAVal then
    { st with
        nbufAttrs :=
          some (setAttr (attrsOrEmpty st.nbufAttrs) st.abuf (applyAttrOpts o st.cbuf)),
        abuf := "" }
  else if st.gate = none ∧ st.abuf ≠ "" then
    { st with nbufAttrs := some (setAttr (attrsOrEmpty st.nbufAttrs) st.abuf ""),
              abuf := "" }
  else st

/-- The buffer/flag reset ending the `>` element handler (lines 279-283):
`cbuf = ""; nbuf = {}; gate = undefined; ntype = undefined;
ttype = undefined`. -/
def resetAfterGt (st : St) : St :=
  { st with cbuf := "", nbufTag := none, nbufAttrs := none, gate := none,
            ntype := none, ttype := none }

/-- The `>` handler for an open element outside quoted attribute values
(lines 204-284): commit the pending gate, upgrade a void (and not
raw-text) tag to self-closing, then either enter raw-text mode, resolve a
closing tag (with the one-level forgiveness and the `UnmatchedClosingTag`
error), or create and append the new element, descending into it unless
it is self-closing. -/
def gtElement (o : Options) (st : St) (i : Nat) : Except ParseErr St :=
  let st := commitGate o st
  let ttype := if isVoidName o (jsKey st.nbufTag) &&
                  !isRawTextName o (jsKey st.nbufTag) then some TType.scTag
               else st.ttype
  if isRawTextName o (jsKey st.nbufTag) then
    let nnode : OpenEl :=
      ⟨(st.nbufTag).getD "", attrsOrEmpty st.nbufAttrs, false, []⟩
    .ok (resetAfterGt { descendInto st nnode with rmode := true })
  else if ttype = some .clTag then
    match st.stack with
    | [] => .error (.unmatchedClosingTag (i + 1))
    | p :: rest =>
      if some st.cur.tagName ≠ st.nbufTag ∧ some p.tagName ≠ st.nbufTag then
        .error (.unmatchedClosingTag (i + 1))
      else
        .ok (resetAfterGt
          { st with stack := rest,
                    cur := { p with children := p.children ++ [st.cur.toNode] } })
  else
    let nnode := mkElement st.nbufTag st.nbufAttrs (ttype = some .scTag)
    if ttype ≠ some .scTag then
      .ok (resetAfterGt
        (descendInto st ⟨(st.nbufTag).getD "", attrsOrEmpty st.nbufAttrs, false, []⟩))
    else
      .ok (resetAfterGt (appendChild st nnode))

/-- One iteration of the scan loop of `parse` (lines 120-418 of
`src/unnamed/part_000`) on character `c` at index `i`. -/
def step (o : Options) (st : St) (c : Char) (i : Nat) : Except ParseErr St :=
  if st.rmode then
    -- Raw-text mode (lines 136-171): roll the closing-sequence match
    -- buffer, and on a completed `</tagName>` flush the raw buffer minus
    -- the closing tag as a single Text child and pop to the parent.
    if c = '<' then
      .ok { st with rmbuf := "<", cbuf := st.cbuf.push c }
    else if c = '/' then
      if st.rmbuf = "<" then .ok { st with rmbuf := "</", cbuf := st.cbuf.push c }
      else .ok { st with rmbuf := "", cbuf := st.cbuf.push c }
    else if c = '>' then
      if (st.rmbuf.length : Int) - 2 = (st.cur.tagName.length : Int) then
        let tnode := mkText
          (⟨st.cbuf.data.take (st.cbuf.length - (st.cur.tagName.length + 2))⟩)
        .ok { popToParent (appendChild st tnode) with
                rmode := false, rmbuf := "", cbuf := "" }
      else .ok { st with rmbuf := "", cbuf := st.cbuf.push c }
    else if st.rmbuf.length ≥ 2 then
      if jsCharAt st.cur.tagName ((st.rmbuf.length : Int) - 2) = some c then
        .ok { st with rmbuf := st.rmbuf.push c, cbuf := st.cbuf.push c }
      else .ok { st with rmbuf := "", cbuf := st.cbuf.push c }
    else .ok { st with cbuf := st.cbuf.push c }
  else if c = '<' then
    -- Lines 173-200.
    if st.ttype = some .scTag then .error (.unexpectedToken c (i + 1))
    else if st.ntype = some .element ∧ st.gate ≠ some .sqAVal ∧
        st.gate ≠ some .dqAVal then
      .error (.unexpectedToken c (i + 1))
    else if st.ntype = none then
      .ok { st with ntype := some .element, gate := some .tagName }
    else if st.ntype = some .text then
      let st := { st with ntype := some .element, gate := some .tagName }
      let cb := applyTextOpts o st.cbuf
      if o.ignoreEmptyText ∧ (jsTrim cb).length = 0 then .ok { st with cbuf := "" }
      else .ok { appendChild st (mkText cb) with cbuf := "" }
    else
      -- ntype is COMMENT, or an element inside a quoted attribute value:
      -- the chain falls through and the character is buffered.
      .ok (defaultAppend st c)
  else if c = '>' then
    -- Lines 201-294.
    if st.ntype = some .element then
      if st.gate ≠ some .sqAVal ∧ st.gate ≠ some .dqAVal then gtElement o st i
      else .ok (defaultAppend st c)
    else if st.ntype = some .comment then
      if jsCharAt st.cbuf ((st.cbuf.length : Int) - 2) = some '-' ∧
          jsCharAt st.cbuf ((st.cbuf.length : Int) - 1) = some '-' then
        .ok { appendChild st (mkComment (st.cbuf.push c)) with
                cbuf := "", ntype := none }
      else .ok (defaultAppend st c)
    else .ok (defaultAppend st c)
  else if isWhitespace c false then
    -- Lines 295-326: inside element-tag syntax whitespace commits the
    -- pending gate; everywhere else it is buffered like any character.
    if st.ntype = some .element then
      if st.gate = none then .ok st
      else if st.gate ≠ some .sqAVal ∧ st.gate ≠ some .dqAVal then
        if st.cbuf ≠ "" then
          if st.gate = some .tagName then
            .ok { st with
                    nbufTag :=
                      some (if o.htmlMode then jsToLower st.cbuf else st.cbuf),
                    cbuf := "", gate := none }
          else if st.gate = some .attName then
            .ok { st with abuf := st.cbuf, cbuf := "", gate := none }
          else if st.gate = some .nqAVal then
            .ok { st with
                    nbufAttrs := some (setAttr (attrsOrEmpty st.nbufAttrs)
                      st.abuf (applyAttrOpts o st.cbuf)),
                    abuf := "", cbuf := "", gate := none }
          else .ok st
        else .ok st
      else .ok (defaultAppend st c)
    else .ok (defaultAppend st c)
  else if c = '/' then
    -- Lines 327-358.
    if st.ttype = some .scTag then .error (.unexpectedToken c (i + 1))
    else if st.ntype = some .element then
      if st.gate = some .tagName then
        if st.cbuf ≠ "" then
          -- Note: the tag name is captured verbatim here, with no
          -- htmlMode lower-casing (line 334).
          .ok { st with ttype := some .scTag, nbufTag := some st.cbuf,
                        cbuf := "", gate := none }
        else .ok { st with ttype := some .clTag }
      else if st.gate = some .nqAVal then
        .ok { st with ttype := some .scTag,
                      nbufAttrs := some (setAttr (attrsOrEmpty st.nbufAttrs)
                        st.abuf (applyAttrOpts o st.cbuf)),
                      abuf := "", cbuf := "", gate := none }
      else if st.gate = none then .ok { st with ttype := some .scTag }
      else .ok (defaultAppend st c)
    else .ok (defaultAppend st c)
  else if c = '=' then
    -- Lines 359-365.
    if st.gate = some .attName then
      .ok { st with abuf := st.cbuf, cbuf := "=", gate := none }
    else .ok (defaultAppend st c)
  else if (c = '\'' ∧ st.gate = some .sqAVal) ∨
      (c = '"' ∧ st.gate = some .dqAVal) then
    -- Lines 366-375: the matching quote commits the attribute value.
    .ok { st with
            nbufAttrs := some (setAttr (attrsOrEmpty st.nbufAttrs)
              st.abuf (applyAttrOpts o st.cbuf)),
            abuf := "", cbuf := "", gate := none }
  else if st.ntype = some .element then
    -- Lines 376-413: any other character inside element-tag syntax.
    if st.gate = some .tagName then
      if jsCharAt st.cbuf 0 = some '!' ∧ jsCharAt st.cbuf 1 = some '-' ∧
          c = '-' then
        .ok { st with cbuf := "<!--", gate := none, ntype := some .comment }
      else .ok (defaultAppend st c)
    else if st.gate = none then
      if st.abuf ≠ "" then
        if st.cbuf = "=" then
          if c = '\'' then .ok { st with cbuf := "", gate := some .sqAVal }
          else if c = '"' then .ok { st with cbuf := "", gate := some .dqAVal }
          else .ok { st with cbuf := String.singleton c, gate := some .nqAVal }
        else if st.cbuf = "" then
          -- Lines 402-408 do not `continue`: the character still falls
          -- through to the buffer append.
          .ok (defaultAppend
            { st with
                nbufAttrs :=
                  some (setAttr (attrsOrEmpty st.nbufAttrs) st.abuf ""),
                abuf := "", gate := some .attName } c)
        else .ok (defaultAppend st c)
      else if (st.nbufTag.getD "") ≠ "" then
        -- Lines 409-411 (`nbuf.tagName` truthy) do not `continue` either.
        .ok (defaultAppend { st with gate := some .attName } c)
      else .ok (defaultAppend st c)
    else .ok (defaultAppend st c)
  else .ok (defaultAppend st c)

/-- The scan loop from index `i` over the remaining characters. -/
def scanFrom (o : Options) (st : St) (i : Nat) : List Char → Except ParseErr St
  | [] => .ok st
  | c :: cs => do scanFrom o (← step o st c i) (i + 1) cs

/-- The full scan over the (already trimmed) input. -/
def scan (o : Options) (l : List Char) : Except ParseErr St :=
  scanFrom o initSt 0 l

/-- Re-attach a finished node to each still-open ancestor in turn,
bottoming out at the root. -/
def unwindAux : List OpenEl → PNode → PNode
  | [], n => n
  | p :: rest, n =>
    unwindAux rest (OpenEl.toNode { p with children := p.children ++ [n] })

/-- Reconstruct the value of the JavaScript `root` variable, whose
children were attached by mutation as the scan descended: every still-open
element is re-attached to its parent, bottoming out at the root. -/
def unwind (st : St) : PNode :=
  unwindAux st.stack st.cur.toNode

/-- The end-of-input flush (lines 420-437): a trailing non-empty character
buffer is pushed as a final Text node in Text state and is a fatal
"Unexpected end of input" in any other state; then the root is
returned. -/
def finalize (o : Options) (st : St) : Except ParseErr PNode :=
  if st.cbuf ≠ "" then
    if st.ntype = some .text then
      let cb := applyTextOpts o st.cbuf
      if o.ignoreEmptyText ∧ cb.length = 0 then .ok (unwind st)
      else .ok (unwind (appendChild st (mkText cb)))
    else .error .unexpectedEndOfInput
  else .ok (unwind st)

/-- Transcription of `parse(data, options)` from `src/unnamed/part_000` on string data:
trim the input, scan it, flush, and return the root node. -/
def parse (data : String) (o : Options) : Except ParseErr PNode := do
  finalize o (← scan o (jsTrim data).data)

end FlexParse

namespace FlexParse

/-- Normal form for `truncateWhitespace` output, relative to the last
emitted character `p`: every classified-whitespace character is a single
space not preceded by another space. -/
def TruncNorm (includeSymbols : Bool) : Option Char → List Char → Prop
  | _, [] => True
  | p, c :: cs =>
    (isWhitespace c includeSymbols = true → c = ' ' ∧ p ≠ some ' ') ∧
      TruncNorm includeSymbols (some c) cs

/-- A sample raw-text-mode state: inside `<script>` with three characters
of raw content buffered and a partial `</s` closing-sequence match. -/
def sampleRawSt : St :=
  { initSt with
      stack := [initSt.cur], cur := ⟨"script", [], false, []⟩,
      rmode := true, rmbuf := "</s", cbuf := "abc</s" }

/-- A sample raw-text-mode state inside `<script>` whose rolling
closing-sequence match buffer holds only `<`. -/
def sampleLtRawSt : St :=
  { initSt with
      stack := [initSt.cur], cur := ⟨"script", [], false, []⟩,
      rmode := true, rmbuf := "<", cbuf := "a<" }

/-- A sample state about to resolve `</br>`: a closing tag whose name
buffer holds `br`, scanned at the root. -/
def sampleClosingSt : St :=
  { initSt with ntype := some .element, gate := some .tagName,
                ttype := some .clTag, cbuf := "br" }

/-- A sample state at end of input with an element construct still open
and a non-empty character buffer. -/
def sampleOpenElementSt : St :=
  { initSt with ntype := some .element, gate := some .tagName, cbuf := "di" }

/-- A sample state about to capture the tag name `DIV` (as in `<DIV`). -/
def sampleTagNameSt : St :=
  { initSt with ntype := some .element, gate := some .tagName, cbuf := "DIV" }

/-- A sample state about to capture the tag name `x` of `<x` with `>`
still to come. -/
def sampleRawVoidSt : St :=
  { initSt with ntype := some .element, gate := some .tagName, cbuf := "x" }

/-- Options registering `x` both as a raw-text element and as a void
element. -/
def rawVoidOpts : Options := { rawTextElements := ["x"], voidElements := ["x"] }

/-- Options with `htmlMode` enabled and everything else default. -/
def htmlOpts : Options := { htmlMode := true }

end FlexParse

namespace FlexParse

theorem commitGate_stack (o : Options) (st : St) :
    (commitGate o st).stack = st.stack := by
  unfold commitGate; split_ifs <;> rfl

theorem commitGate_cur (o : Options) (st : St) :
    (commitGate o st).cur = st.cur := by
  unfold commitGate; split_ifs <;> rfl

theorem commitGate_ttype (o : Options) (st : St) :
    (commitGate o st).ttype = st.ttype := by
  unfold commitGate; split_ifs <;> rfl

/-- A classified whitespace character is neither `<` nor `>`. -/
theorem isWhitespace_ne_angle {c : Char} (h : isWhitespace c false = true) :
    c ≠ '<' ∧ c ≠ '>' := by
  constructor <;> rintro rfl <;> revert h <;> decide

/-- C7: parsing the plain string "text" with default options yields a root
with exactly one Text child whose value is "text". -/
theorem c7_plain_text :
    parse "text" {} = .ok (.element "ROOT" [] [.text "text"] false) := by
  rfl

/-- C6: parsing "<!-- comment -->" with default options yields a root with
exactly one Comment child storing the input verbatim, delimiters
included. -/
theorem c6_comment_verbatim :
    parse "<!-- comment -->" {} =
      .ok (.element "ROOT" [] [.comment "<!-- comment -->"] false) := by
  rfl

end FlexParse

namespace FlexParse

/-- C5 as stated is false: `<div/>` and `<div></div>` do not normalize to
the identical result — the `<div/>` child carries `isSelfClosing = true`,
the `<div></div>` child `isSelfClosing = false`. -/
theorem c5_counterexample :
    parse "<div/>" {} =
      .ok (.element "ROOT" [] [.element "div" [] [] true] false) ∧
    parse "<div></div>" {} =
      .ok (.element "ROOT" [] [.element "div" [] [] false] false) ∧
    parse "<div/>" ({} : Options) ≠ parse "<div></div>" {} := by
  refine ⟨rfl, rfl, ?_⟩
  intro h
  simp only [show parse "<div/>" {} =
      .ok (.element "ROOT" [] [.element "div" [] [] true] false) from rfl,
    show parse "<div></div>" {} =
      .ok (.element "ROOT" [] [.element "div" [] [] false] false) from rfl,
    Except.ok.injEq, PNode.element.injEq, List.cons.injEq] at h
  exact Bool.true_eq_false.mp h.2.2.1.1.2.2.2

/-- C5 amended: `"<div></div>"` and the variants `<div>`, `< div >`,
`<div></ div >` all yield the identical root with exactly one Element
child named `div`, no attributes and zero children; `<div/>` yields that
same shape except that its child is flagged self-closing. -/
theorem c5_div_variants_amended :
    parse "<div></div>" {} =
      .ok (.element "ROOT" [] [.element "div" [] [] false] false) ∧
    parse "<div>" {} =
      .ok (.element "ROOT" [] [.element "div" [] [] false] false) ∧
    parse "< div >" {} =
      .ok (.element "ROOT" [] [.element "div" [] [] false] false) ∧
    parse "<div></ div >" {} =
      .ok (.element "ROOT" [] [.element "div" [] [] false] false) ∧
    parse "<div/>" {} =
      .ok (.element "ROOT" [] [.element "div" [] [] true] false) :=
  ⟨rfl, rfl, rfl, rfl, rfl⟩

/-- C3 as stated is false: on input `"<"` the scan ends with an Element
node type still open (an unterminated tag), yet `parse` returns the root
instead of throwing. -/
theorem c3_counterexample :
    scan {} "<".data =
      .ok { initSt with ntype := some .element, gate := some .tagName } ∧
    parse "<" {} = .ok (.element "ROOT" [] [] false) :=
  ⟨rfl, rfl⟩

/-- C3 amended: reaching the end of input with an Element or Comment node
type still open is a fatal "Unexpected end of input" error exactly when
the pending character buffer is non-empty; with an empty buffer the
dangling construct is discarded and the root is returned. -/
theorem c3_end_of_input_amended (o : Options) (st : St)
    (h : st.ntype = some .element ∨ st.ntype = some .comment) :
    (st.cbuf ≠ "" → finalize o st = .error .unexpectedEndOfInput) ∧
    (st.cbuf = "" → finalize o st = .ok (unwind st)) := by
  have hnt : st.ntype ≠ some .text := by
    rcases h with h | h <;> simp [h]
  constructor
  · intro hc
    simp [finalize, hc, hnt]
  · intro hc
    simp [finalize, hc]

/-- C3 amended, witnessed at a concrete dangling-element state. -/
theorem c3_end_of_input_amended_witness :
    finalize {} sampleOpenElementSt = .error .unexpectedEndOfInput :=
  (c3_end_of_input_amended {} sampleOpenElementSt (Or.inl rfl)).1 (by decide)

end FlexParse

namespace FlexParse

/-- The output of the collapser loop is in normal form relative to the
carried last-emitted character. -/
theorem truncateGo_norm (sym : Bool) :
    ∀ (l : List Char) (p : Option Char), TruncNorm sym p (truncateGo sym p l) := by
  intro l
  induction l with
  | nil => intro p; trivial
  | cons c cs ih =>
    intro p
    unfold truncateGo
    by_cases hw : isWhitespace c sym = true
    · by_cases hp : p = some ' '
      · rw [if_pos hw, if_pos hp]
        exact ih p
      · rw [if_pos hw, if_neg hp]
        exact ⟨fun _ => ⟨rfl, hp⟩, ih (some ' ')⟩
    · rw [if_neg hw]
      exact ⟨fun h => absurd h hw, ih (some c)⟩

/-- The collapser loop fixes inputs already in normal form. -/
theorem truncateGo_fixed (sym : Bool) :
    ∀ (l : List Char) (p : Option Char),
      TruncNorm sym p l → truncateGo sym p l = l := by
  intro l
  induction l with
  | nil => intro p _; rfl
  | cons c cs ih =>
    intro p hn
    obtain ⟨h1, h2⟩ := hn
    unfold truncateGo
    by_cases hw : isWhitespace c sym = true
    · obtain ⟨hc, hp⟩ := h1 hw
      subst hc
      rw [if_pos hw, if_neg hp, ih (some ' ') h2]
    · rw [if_neg hw, ih (some c) h2]

/-- C8: the whitespace collapser is idempotent, for either value of
`includeSymbols`. -/
theorem c8_truncate_idempotent (s : String) (sym : Bool) :
    truncateWhitespace (truncateWhitespace s sym) sym =
      truncateWhitespace s sym := by
  unfold truncateWhitespace
  exact congrArg String.mk
    (truncateGo_fixed sym (truncateGo sym none s.data) none
      (truncateGo_norm sym s.data none))

end FlexParse

namespace FlexParse

/-- C1 as stated is false: a failing partial match with the rolling
match buffer still at `<` does not reset it to empty — the reset fires
only once the buffer already holds at least `</` (lines 161-167) — so the
`<` and a later `/` need not be adjacent and raw-text mode can end
without a complete `</tagName>` sequence. Concretely, on an ordinary
character with the buffer at `<` the buffer is left unchanged, and in
`<script>a<b/script>x</script>` the script body ends at the `>` of
`<b/script>`, leaving the script element a single Text child `a<`. -/
theorem c1_counterexample :
    step { rawTextElements := ["script"] } sampleLtRawSt 'b' 0 =
      .ok { sampleLtRawSt with
              rmbuf := "<", cbuf := sampleLtRawSt.cbuf.push 'b' } ∧
    parse "<script>a<b/script>x</script>" { rawTextElements := ["script"] } =
      .ok (.element "ROOT" []
        [.element "script" [] [.text "a<"] false, .text "x",
         .element "script" [] [] false] false) :=
  ⟨by rfl, by rfl⟩

/-- C1 amended: in raw-text mode `<` restarts the rolling match buffer at
`<` and `/` extends it to `</` exactly when the buffer is `<`, resetting
it to empty otherwise; an ordinary character extends the buffer on a tag
name match or resets it to empty only once the buffer holds at least `</`
(length ≥ 2), and with a shorter buffer leaves it unchanged — so a `<`
and a later non-adjacent `/` still assemble `</`; a `>` whose buffer
length is not tagName length + 2 resets the buffer, and one whose buffer
length is tagName length + 2 ends raw-text mode, pushing the accumulated
raw buffer minus the matched closing-tag characters as a single Text
child and popping the open node to its parent; end to end,
`<script>a < b / c</script>` under htmlMode yields a single `script`
element with one Text child holding the raw content verbatim. -/
theorem c1_raw_text_mode_amended (o : Options) (st : St) (i : Nat)
    (h : st.rmode = true) :
    (step o st '<' i = .ok { st with rmbuf := "<", cbuf := st.cbuf.push '<' }) ∧
    (st.rmbuf = "<" →
      step o st '/' i = .ok { st with rmbuf := "</", cbuf := st.cbuf.push '/' }) ∧
    (st.rmbuf ≠ "<" →
      step o st '/' i = .ok { st with rmbuf := "", cbuf := st.cbuf.push '/' }) ∧
    (∀ c : Char, c ≠ '<' → c ≠ '/' → c ≠ '>' → st.rmbuf.length < 2 →
      step o st c i = .ok { st with cbuf := st.cbuf.push c }) ∧
    (∀ c : Char, c ≠ '<' → c ≠ '/' → c ≠ '>' → 2 ≤ st.rmbuf.length →
      jsCharAt st.cur.tagName ((st.rmbuf.length : Int) - 2) = some c →
      step o st c i = .ok
        { st with rmbuf := st.rmbuf.push c, cbuf := st.cbuf.push c }) ∧
    (∀ c : Char, c ≠ '<' → c ≠ '/' → c ≠ '>' → 2 ≤ st.rmbuf.length →
      jsCharAt st.cur.tagName ((st.rmbuf.length : Int) - 2) ≠ some c →
      step o st c i = .ok { st with rmbuf := "", cbuf := st.cbuf.push c }) ∧
    ((st.rmbuf.length : Int) - 2 ≠ (st.cur.tagName.length : Int) →
      step o st '>' i = .ok { st with rmbuf := "", cbuf := st.cbuf.push '>' }) ∧
    ((st.rmbuf.length : Int) - 2 = (st.cur.tagName.length : Int) →
      step o st '>' i = .ok
        { popToParent (appendChild st (mkText
            ⟨st.cbuf.data.take (st.cbuf.length - (st.cur.tagName.length + 2))⟩)) with
          rmode := false, rmbuf := "", cbuf := "" }) ∧
    parse "<script>a < b / c</script>" htmlOpts =
      .ok (.element "ROOT" []
        [.element "script" [] [.text "a < b / c"] false] false) := by
  refine ⟨by simp [step, h], fun h2 => by simp [step, h, h2],
    fun h2 => by simp [step, h, h2],
    fun c hc1 hc2 hc3 hl => by simp [step, h, hc1, hc2, hc3, Nat.not_le.mpr hl],
    fun c hc1 hc2 hc3 hl hm => by simp [step, h, hc1, hc2, hc3, hl, hm],
    fun c hc1 hc2 hc3 hl hm => by simp [step, h, hc1, hc2, hc3, hl, hm],
    fun hm => by simp [step, h, hm], fun hm => by simp [step, h, hm], by rfl⟩

/-- C1 amended, witnessed on the short-buffer case the original claim
missed: with the buffer at `<`, an ordinary character leaves it
unchanged. -/
theorem c1_raw_text_mode_amended_witness :
    step { rawTextElements := ["script"] } sampleLtRawSt 'b' 0 =
      .ok { sampleLtRawSt with cbuf := sampleLtRawSt.cbuf.push 'b' } :=
  (c1_raw_text_mode_amended { rawTextElements := ["script"] } sampleLtRawSt 0
    rfl).2.2.2.1 'b' (by decide) (by decide) (by decide) (by decide)

/-- C2 as stated is false: on `"</br>"` with `br` registered as a void
element, a `>` is reached while a closing tag is being parsed with the
open node at the root, yet `parse` does not throw `UnmatchedClosingTag` —
the tag type is overridden to self-closing first. -/
theorem c2_counterexample :
    scan { voidElements := ["br"] } "</br".data =
      .ok { initSt with
              ntype := some .element, gate := some .tagName,
              ttype := some .clTag, cbuf := "br" } ∧
    parse "</br>" { voidElements := ["br"] } =
      .ok (.element "ROOT" [] [.element "br" [] [] true] false) :=
  ⟨rfl, rfl⟩

/-- C2 amended: when a `>` is reached while a closing tag is being parsed
and the resolved tag name is in neither `rawTextElements` nor
`voidElements`, `parse` throws `UnmatchedClosingTag` if and only if the
open node is the root, or neither the open node's tagName nor its
parent's tagName equals the closing tag's name; otherwise the open node
pops exactly one level to its parent. -/
theorem c2_closing_tag_amended (o : Options) (st : St) (i : Nat)
    (hrm : st.rmode = false) (hn : st.ntype = some .element)
    (hg1 : st.gate ≠ some .sqAVal) (hg2 : st.gate ≠ some .dqAVal)
    (ht : st.ttype = some .clTag)
    (hraw : isRawTextName o (jsKey (commitGate o st).nbufTag) = false)
    (hvoid : isVoidName o (jsKey (commitGate o st).nbufTag) = false) :
    (step o st '>' i = .error (.unmatchedClosingTag (i + 1)) ↔
      (st.stack = [] ∨ ∃ p rest, st.stack = p :: rest ∧
        some st.cur.tagName ≠ (commitGate o st).nbufTag ∧
        some p.tagName ≠ (commitGate o st).nbufTag)) ∧
    (∀ p rest, st.stack = p :: rest →
      (some st.cur.tagName = (commitGate o st).nbufTag ∨
        some p.tagName = (commitGate o st).nbufTag) →
      step o st '>' i = .ok (resetAfterGt
        { commitGate o st with
            stack := rest,
            cur := { p with children := p.children ++ [st.cur.toNode] } })) := by
  constructor
  · rw [show step o st '>' i = gtElement o st i by simp [step, hrm, hn, hg1, hg2]]
    unfold gtElement
    simp only [hraw, hvoid, commitGate_ttype, ht, commitGate_stack, commitGate_cur]
    rcases hs : st.stack with _ | ⟨p, rest⟩
    · simp
    · simp only [Bool.false_eq_true, if_false, reduceIte]
      by_cases hcond : some st.cur.tagName ≠ (commitGate o st).nbufTag ∧
          some p.tagName ≠ (commitGate o st).nbufTag
      · simp [hcond]
      · simp [hcond]
  · intro p rest hs hmatch
    rw [show step o st '>' i = gtElement o st i by simp [step, hrm, hn, hg1, hg2]]
    unfold gtElement
    simp only [hraw, hvoid, commitGate_ttype, ht, commitGate_stack,
      commitGate_cur, hs]
    have hnot : ¬(some st.cur.tagName ≠ (commitGate o st).nbufTag ∧
        some p.tagName ≠ (commitGate o st).nbufTag) := by
      rcases hmatch with hm | hm <;> simp [hm]
    simp [hnot]

/-- C2 amended, witnessed at the root with a pending `</br>` closing tag
and default options: the unmatched closing tag throws. -/
theorem c2_closing_tag_amended_witness :
    step {} sampleClosingSt '>' 4 = .error (.unmatchedClosingTag 5) :=
  ((c2_closing_tag_amended {} sampleClosingSt 4 rfl rfl (by decide) (by decide)
    rfl (by decide) (by decide)).1).mpr (Or.inl rfl)

end FlexParse

namespace FlexParse

/-- C4 as stated is false: under htmlMode the tag name of `<DIV/>` is
captured verbatim as `DIV` — the `/` terminator does not lower-case —
while `<DIV></DIV>` (terminated by `>`) does capture `div`. -/
theorem c4_counterexample :
    parse "<DIV/>" htmlOpts =
      .ok (.element "ROOT" [] [.element "DIV" [] [] true] false) ∧
    parse "<DIV></DIV>" htmlOpts =
      .ok (.element "ROOT" [] [.element "div" [] [] false] false) :=
  ⟨by rfl, by rfl⟩

/-- C4 amended: when the tag-name gate is terminated by whitespace or by
`>`, htmlMode forces the captured tag name to lower-case (and without
htmlMode it is preserved verbatim); when the gate is terminated by `/`
the name is captured verbatim even under htmlMode. -/
theorem c4_tag_case_amended (o : Options) (st : St) (i : Nat) :
    (∀ c : Char, isWhitespace c false = true → st.rmode = false →
      st.ntype = some .element → st.gate = some .tagName → st.cbuf ≠ "" →
      step o st c i = .ok
        { st with
            nbufTag := some (if o.htmlMode then jsToLower st.cbuf else st.cbuf),
            cbuf := "", gate := none }) ∧
    (st.gate = some .tagName →
      (commitGate o st).nbufTag =
        some (if o.htmlMode then jsToLower st.cbuf else st.cbuf)) ∧
    (st.rmode = false → st.ntype = some .element → st.gate = some .tagName →
      st.ttype ≠ some .scTag → st.cbuf ≠ "" →
      step o st '/' i = .ok
        { st with ttype := some .scTag, nbufTag := some st.cbuf,
                  cbuf := "", gate := none }) := by
  refine ⟨?_, ?_, ?_⟩
  · intro c hw hrm hn hg hc
    obtain ⟨h1, h2⟩ := isWhitespace_ne_angle hw
    simp [step, h1, h2, hw, hrm, hn, hg, hc]
  · intro hg
    simp [commitGate, hg]
  · intro hrm hn hg hsc hc
    simp [step, hrm, hsc, hn, hg, hc,
      show isWhitespace '/' false = false from by decide]

/-- C4 amended, witnessed on `<DIV` about to be closed by `/` under
htmlMode: the captured name stays `DIV`. -/
theorem c4_tag_case_amended_witness :
    step htmlOpts sampleTagNameSt '/' 4 =
      .ok { sampleTagNameSt with
              ttype := some .scTag, nbufTag := some "DIV",
              cbuf := "", gate := none } :=
  (c4_tag_case_amended htmlOpts sampleTagNameSt 4).2.2 rfl rfl rfl
    (by decide) (by decide)

/-- C9: when the resolved tag name is registered both as a raw-text
element and as a void element, raw text wins — at the closing `>` the
element is opened (the scan descends into it) and raw-text mode is
entered, instead of the element being appended as an implicitly
self-closing void; end to end, `<x>hi</x>` with `x` in both lists yields
an `x` element holding one Text child. -/
theorem c9_rawtext_beats_void (o : Options) (st : St) (i : Nat)
    (hrm : st.rmode = false) (hn : st.ntype = some .element)
    (hg1 : st.gate ≠ some .sqAVal) (hg2 : st.gate ≠ some .dqAVal)
    (hraw : isRawTextName o (jsKey (commitGate o st).nbufTag) = true)
    (_hvoid : isVoidName o (jsKey (commitGate o st).nbufTag) = true) :
    step o st '>' i = .ok (resetAfterGt
      { descendInto (commitGate o st)
          ⟨((commitGate o st).nbufTag).getD "",
           attrsOrEmpty (commitGate o st).nbufAttrs, false, []⟩ with
        rmode := true }) ∧
    parse "<x>hi</x>" rawVoidOpts =
      .ok (.element "ROOT" [] [.element "x" [] [.text "hi"] false] false) :=
  ⟨by simp [step, hrm, hn, hg1, hg2, gtElement, hraw], by rfl⟩

/-- C9, witnessed at the `>` of `<x>` with `x` in both lists. -/
theorem c9_rawtext_beats_void_witness :
    step rawVoidOpts sampleRawVoidSt '>' 2 = .ok (resetAfterGt
      { descendInto (commitGate rawVoidOpts sampleRawVoidSt)
          ⟨((commitGate rawVoidOpts sampleRawVoidSt).nbufTag).getD "",
           attrsOrEmpty (commitGate rawVoidOpts sampleRawVoidSt).nbufAttrs,
           false, []⟩ with
        rmode := true }) :=
  (c9_rawtext_beats_void rawVoidOpts sampleRawVoidSt 2 rfl rfl (by decide)
    (by decide) (by decide) (by decide)).1

/-- C10: at the closing `>` of a closing tag whose name is in
`voidElements` and not in `rawTextElements`, the tag type is overwritten
from closing to self-closing: no error is thrown and nothing pops —
a new self-closing element of that name is appended to the current open
node, which remains the open node; end to end, `</br>` under htmlMode
yields a self-closing `br` child of the root. -/
theorem c10_void_closing_tag (o : Options) (st : St) (i : Nat)
    (hrm : st.rmode = false) (hn : st.ntype = some .element)
    (hg1 : st.gate ≠ some .sqAVal) (hg2 : st.gate ≠ some .dqAVal)
    (_ht : st.ttype = some .clTag)
    (hraw : isRawTextName o (jsKey (commitGate o st).nbufTag) = false)
    (hvoid : isVoidName o (jsKey (commitGate o st).nbufTag) = true) :
    step o st '>' i = .ok (resetAfterGt (appendChild (commitGate o st)
      (mkElement (commitGate o st).nbufTag (commitGate o st).nbufAttrs true))) ∧
    parse "</br>" htmlOpts =
      .ok (.element "ROOT" [] [.element "br" [] [] true] false) :=
  ⟨by simp [step, hrm, hn, hg1, hg2, gtElement, hraw, hvoid,
      commitGate_ttype], by rfl⟩

/-- C10, witnessed at the `>` of `</br>` under htmlMode. -/
theorem c10_void_closing_tag_witness :
    step htmlOpts sampleClosingSt '>' 4 = .ok (resetAfterGt
      (appendChild (commitGate htmlOpts sampleClosingSt)
        (mkElement (commitGate htmlOpts sampleClosingSt).nbufTag
          (commitGate htmlOpts sampleClosingSt).nbufAttrs true))) :=
  (c10_void_closing_tag htmlOpts sampleClosingSt 4 rfl rfl (by decide)
    (by decide) rfl (by decide) (by decide)).1

end FlexParse
